import Mathlib

/-!
Shallow embedding of the bots-control-panel repository (a FastAPI gateway
that authenticates per-service API keys and runs systemctl actions).

The registry (the services table of app/models.py) is a list of records in
insertion order.  The crud layer (app/crud.py), the credential verifier and
the endpoint handlers (main.py) are translated as pure functions of that
list; the subprocess call inside the action executor is made explicit by
passing in the outcome the operating system produced for the spawned
process.  HTTP exceptions raised by the handlers become the error branch of
an Except value carrying the status code and detail string.
-/

/-- Embeds models.Service: one row of the services table, with an integer
primary key, a unique name and a unique api_key. -/
structure Service where
  id : Nat
  name : String
  api_key : String
deriving DecidableEq

/-- Embeds schemas.Service, the read schema returned by the admin
endpoints: it carries name and id only; the api_key field is deliberately
absent from this schema. -/
structure ServiceRead where
  name : String
  id : Nat
deriving DecidableEq

/-- Embeds schemas.ServiceResponse, the body returned by the service
control endpoint. -/
structure ServiceResponse where
  service : String
  action : String
  success : Bool
  message : String
  details : Option String
deriving DecidableEq

/-- Embeds schemas.ServiceAction, the closed enumeration of allowed
systemd actions. -/
inductive ServiceAction where
  | start
  | stop
  | restart
  | status
deriving DecidableEq

/-- The string value of each enumeration member, as declared in
schemas.ServiceAction (a str Enum whose values are the verbs). -/
def ServiceAction.value : ServiceAction → String
  | .start => "start"
  | .stop => "stop"
  | .restart => "restart"
  | .status => "status"

/-- Conversion of a raw path segment to a ServiceAction, as FastAPI does
when it parses the action path parameter against the str Enum: the segment
must equal one of the four declared values. -/
def ServiceAction.ofString (s : String) : Option ServiceAction :=
  if s == "start" then some .start
  else if s == "stop" then some .stop
  else if s == "restart" then some .restart
  else if s == "status" then some .status
  else none

/-- Embeds fastapi.HTTPException as raised by main.py: a status code and a
detail string. -/
structure HTTPError where
  status_code : Nat
  detail : String
deriving DecidableEq

/-- Embeds crud.get_service_by_name: first row whose name column equals
the argument. -/
def get_service_by_name (db : List Service) (name : String) : Option Service :=
  db.find? (fun s => s.name == name)

/-- Embeds crud.get_service_by_api_key: first row whose api_key column
equals the argument. -/
def get_service_by_api_key (db : List Service) (api_key : String) : Option Service :=
  db.find? (fun s => s.api_key == api_key)

/-- Embeds crud.get_services: offset(skip).limit(limit) over the table in
insertion order. -/
def get_services (db : List Service) (skip : Nat) (limit : Nat) : List Service :=
  (db.drop skip).take limit

/-- Embeds crud.create_service: inserts a new row built from the request
body; the primary key value newId is assigned by the database on commit. -/
def create_service (db : List Service) (name : String) (api_key : String)
    (newId : Nat) : List Service × Service :=
  let db_service : Service := ⟨newId, name, api_key⟩
  (db ++ [db_service], db_service)

/-- The 401 raised by verify_api_key_for_service when the X-API-Key header
is missing or empty. -/
def missingCredentialError : HTTPError :=
  ⟨401, "Missing X-API-Key header"⟩

/-- The 404 raised by verify_api_key_for_service when the service name has
no row in the registry. -/
def unknownServiceError (service_name : String) : HTTPError :=
  ⟨404, "Service \x27" ++ service_name ++ "\x27 not found or not managed by this API."⟩

/-- The 401 raised by verify_api_key_for_service when the presented key
differs from the stored one. -/
def invalidCredentialError : HTTPError :=
  ⟨401, "Invalid API Key for the specified service"⟩

/-- Embeds verify_api_key_for_service of main.py.  The header argument is
an Option because FastAPI passes None when the header is absent; the
Python guard `if not x_api_key` treats None and the empty string alike, so
the embedding tests the header-or-empty-default against the empty
string. -/
def verify_api_key_for_service (db : List Service) (service_name : String)
    (x_api_key : Option String) : Except HTTPError Service :=
  if x_api_key.getD "" == "" then
    .error missingCredentialError
  else
    match get_service_by_name db service_name with
    | none => .error (unknownServiceError service_name)
    | some db_service =>
      if db_service.api_key != x_api_key.getD "" then
        .error invalidCredentialError
      else
        .ok db_service

/-- Possible outcomes of the subprocess.run call inside
_run_systemctl_command: the process completed with a return code and
captured output, the command binary was not found (FileNotFoundError), the
30 second timeout elapsed (subprocess.TimeoutExpired), or some other
exception was raised with the given text. -/
inductive ProcOutcome where
  | completed (returncode : Int) (stdout : String) (stderr : String)
  | fileNotFound
  | timeoutExpired
  | otherError (msg : String)
deriving DecidableEq

/-- The argv list built by _run_systemctl_command. -/
def systemctlCommand (action : ServiceAction) (service_name : String) : List String :=
  ["sudo", "/bin/systemctl", action.value, service_name]

/-- Embeds the str.strip() calls applied to the captured output: removes
whitespace from both ends of the string. -/
def strip (s : String) : String :=
  ⟨((s.data.dropWhile Char.isWhitespace).reverse.dropWhile Char.isWhitespace).reverse⟩

/-- Embeds _run_systemctl_command of main.py: one subprocess invocation,
with every branch of the try/except converted into the returned
ServiceResponse. -/
def run_systemctl_command (action : ServiceAction) (service_name : String)
    (outcome : ProcOutcome) : ServiceResponse :=
  match outcome with
  | .completed returncode stdout stderr =>
    let details := "STDOUT:\n" ++ strip stdout ++ "\nSTDERR:\n" ++ strip stderr
    if returncode == 0 then
      { service := service_name
        action := action.value
        success := true
        message := "Service \x27" ++ service_name ++ "\x27 action \x27" ++
          action.value ++ "\x27 executed successfully."
        details := some details }
    else
      { service := service_name
        action := action.value
        success := false
        message := "Failed to execute \x27" ++ action.value ++ "\x27 on service \x27" ++
          service_name ++ "\x27. Return code: " ++ toString returncode ++ "."
        details := some details }
  | .fileNotFound =>
      { service := service_name
        action := action.value
        success := false
        message := "Server configuration error: \x27sudo\x27 or \x27systemctl\x27 command not found."
        details := some "Ensure sudo and systemctl are installed and in the PATH for the user running the FastAPI app." }
  | .timeoutExpired =>
      { service := service_name
        action := action.value
        success := false
        message := "Command \x27" ++ String.intercalate (" ") (systemctlCommand action service_name) ++
          "\x27 timed out after 30 seconds."
        details := some "The service might be unresponsive or the command took too long." }
  | .otherError msg =>
      { service := service_name
        action := action.value
        success := false
        message := "An unexpected error occurred while running the command: " ++ msg
        details := some msg }

/-- Embeds control_service_api of main.py, after FastAPI has already
parsed the action enumeration: the verification dependency runs first and
its HTTPException propagates; on success the executor result is returned
with status 200. -/
def control_service_api (db : List Service) (service_name : String)
    (action : ServiceAction) (x_api_key : Option String)
    (outcome : ProcOutcome) : Except HTTPError (Nat × ServiceResponse) :=
  match verify_api_key_for_service db service_name x_api_key with
  | .error e => .error e
  | .ok db_service => .ok (200, run_systemctl_command action db_service.name outcome)

/-- The 422 produced by FastAPI path parameter validation when the action
segment is not one of the four enumeration values; it is raised before any
dependency or handler code runs. -/
def invalidActionError : HTTPError :=
  ⟨422, "Input should be one of the ServiceAction enumeration values"⟩

/-- The full route for POST /api/services/SERVICE/ACTION, starting from
the raw action path segment: FastAPI first validates the segment against
schemas.ServiceAction (rejecting with 422), then the dependency and the
handler of control_service_api run.  The second component records the argv
of each systemctl invocation performed during the request, in order. -/
def handle_control_request (db : List Service) (service_name : String)
    (action_str : String) (x_api_key : Option String)
    (outcome : ProcOutcome) :
    Except HTTPError (Nat × ServiceResponse) × List (List String) :=
  match ServiceAction.ofString action_str with
  | none => (.error invalidActionError, [])
  | some action =>
    match verify_api_key_for_service db service_name x_api_key with
    | .error e => (.error e, [])
    | .ok db_service =>
      (.ok (200, run_systemctl_command action db_service.name outcome),
       [systemctlCommand action db_service.name])

/-- Embeds create_new_service of main.py, returning the response together
with the post-state of the registry: duplicate name, then duplicate key,
are rejected with 400 and nothing is inserted; otherwise the row is
inserted and a 201 with the schemas.Service view is returned. -/
def create_new_service (db : List Service) (name : String) (api_key : String)
    (newId : Nat) : Except HTTPError (Nat × ServiceRead) × List Service :=
  match get_service_by_name db name with
  | some _ => (.error ⟨400, "Service \x27" ++ name ++ "\x27 already registered."⟩, db)
  | none =>
    match get_service_by_api_key db api_key with
    | some _ => (.error ⟨400, "API key already in use."⟩, db)
    | none =>
      let r := create_service db name api_key newId
      (.ok (201, ⟨r.2.name, r.2.id⟩), r.1)

/-- Embeds list_managed_services of main.py: a 200 with the paginated rows
serialised through schemas.Service (key omitted). -/
def list_managed_services (db : List Service) (skip : Nat) (limit : Nat) :
    Nat × List ServiceRead :=
  (200, (get_services db skip limit).map (fun s => ⟨s.name, s.id⟩))

/-- One inbound request to any of the public JSON endpoints of main.py. -/
inductive ApiRequest where
  | control (service_name : String) (action_str : String)
      (x_api_key : Option String) (outcome : ProcOutcome)
  | adminCreate (name : String) (api_key : String) (newId : Nat)
  | adminList (skip : Nat) (limit : Nat)

/-- Response of a public JSON endpoint. -/
inductive ApiOutcome where
  | controlResult (r : Except HTTPError (Nat × ServiceResponse))
  | createResult (r : Except HTTPError (Nat × ServiceRead))
  | listResult (r : Nat × List ServiceRead)

/-- Dispatch of one request against the registry, returning the response
and the registry post-state.  The control and list handlers only query the
session (crud.get_service_by_name, crud.get_services); only the admin
create handler calls crud.create_service, which adds and commits a row. -/
def handle_request (db : List Service) : ApiRequest → ApiOutcome × List Service
  | .control service_name action_str x_api_key outcome =>
      (.controlResult (handle_control_request db service_name action_str x_api_key outcome).1, db)
  | .adminCreate name api_key newId =>
      let r := create_new_service db name api_key newId
      (.createResult r.1, r.2)
  | .adminList skip limit =>
      (.listResult (list_managed_services db skip limit), db)

/-- Concrete registry record used to evaluate the theorems on inputs taken
from the end-to-end scenarios of the specification. -/
def demoService : Service :=
  ⟨1, "demo.service", "abcdefghij"⟩

/-- Concrete one-record registry. -/
def demoRegistry : List Service :=
  [demoService]

/-- Concrete wrong key. -/
def wrongKey : String :=
  "wrong"

/-- Second concrete registry record. -/
def demoService2 : Service :=
  ⟨2, "other.service", "0123456789"⟩

/-- Concrete two-record registry in insertion order. -/
def demoRegistry2 : List Service :=
  [demoService, demoService2]

/-- True exactly when the subprocess outcome is a completed process with
return code zero, the one case _run_systemctl_command reports as
success. -/
def ProcOutcome.isCleanExit : ProcOutcome → Bool
  | .completed returncode _ _ => returncode == 0
  | _ => false

/-- Appending to a nonempty string never yields the empty string. -/
theorem append_left_ne_empty (s t : String) (hs : s ≠ "") : s ++ t ≠ "" := by
  intro h
  apply hs
  have hd : s.data ++ t.data = ([] : List Char) := by
    have h2 := congrArg String.data h
    rwa [String.data_append] at h2
  exact String.ext (List.append_eq_nil.mp hd).1

/-- In a registry with pairwise distinct names, the lookup by name of a
member record finds exactly that record. -/
theorem get_service_by_name_of_mem (db : List Service) (s : Service)
    (huniq : db.Pairwise (fun a b => a.name ≠ b.name)) (hmem : s ∈ db) :
    get_service_by_name db s.name = some s := by
  induction db with
  | nil => cases hmem
  | cons a rest ih =>
    rcases List.mem_cons.mp hmem with heq | hm
    · subst heq
      rw [get_service_by_name, List.find?_cons_of_pos _ (by simp)]
    · have hne : a.name ≠ s.name := (List.pairwise_cons.mp huniq).1 s hm
      have hrec := ih (List.pairwise_cons.mp huniq).2 hm
      rw [get_service_by_name, List.find?_cons_of_neg _ (by simp [hne])]
      exact hrec

/-- Every error the credential verifier can produce is one of its three
declared failures. -/
theorem verify_error_cases (db : List Service) (service_name : String)
    (x_api_key : Option String) (e : HTTPError)
    (h : verify_api_key_for_service db service_name x_api_key = .error e) :
    e = missingCredentialError ∨ e = unknownServiceError service_name ∨
    e = invalidCredentialError := by
  unfold verify_api_key_for_service at h
  split at h
  · exact Or.inl (Except.error.inj h).symm
  · split at h
    · exact Or.inr (Or.inl (Except.error.inj h).symm)
    · split at h
      · exact Or.inr (Or.inr (Except.error.inj h).symm)
      · cases h

/-- C1: credential verification checks its failure conditions in order:
an absent or empty presented key fails with the 401 MissingCredential
error for every registry (so without consulting it); otherwise an
unregistered service name fails with the 404 UnknownService error for
every presented key (so without comparing keys); otherwise a key
differing from the stored apiKey fails with the 401 InvalidCredential
error; otherwise the matched record is returned. -/
theorem verify_checks_in_order (db : List Service) (service_name : String)
    (x_api_key : Option String) :
    (x_api_key.getD "" = "" →
      verify_api_key_for_service db service_name x_api_key =
        .error missingCredentialError) ∧
    (x_api_key.getD "" ≠ "" → get_service_by_name db service_name = none →
      verify_api_key_for_service db service_name x_api_key =
        .error (unknownServiceError service_name)) ∧
    (∀ s, x_api_key.getD "" ≠ "" →
      get_service_by_name db service_name = some s →
      s.api_key ≠ x_api_key.getD "" →
      verify_api_key_for_service db service_name x_api_key =
        .error invalidCredentialError) ∧
    (∀ s, x_api_key.getD "" ≠ "" →
      get_service_by_name db service_name = some s →
      s.api_key = x_api_key.getD "" →
      verify_api_key_for_service db service_name x_api_key = .ok s) ∧
    missingCredentialError.status_code = 401 ∧
    (unknownServiceError service_name).status_code = 404 ∧
    invalidCredentialError.status_code = 401 := by
  refine ⟨?_, ?_, ?_, ?_, rfl, rfl, rfl⟩
  · intro h
    simp [verify_api_key_for_service, h]
  · intro h hn
    simp [verify_api_key_for_service, h, hn]
  · intro s h hs hne
    simp [verify_api_key_for_service, h, hs, hne]
  · intro s h hs he
    simp [verify_api_key_for_service, h, hs, he]

/-- Witness for verify_checks_in_order: each branch evaluated on the
concrete demo registry. -/
theorem verify_checks_in_order_witness :
    verify_api_key_for_service demoRegistry ("demo.service") none =
      .error missingCredentialError ∧
    verify_api_key_for_service [] ("demo.service") (some ("abcdefghij")) =
      .error (unknownServiceError ("demo.service")) ∧
    verify_api_key_for_service demoRegistry ("demo.service") (some wrongKey) =
      .error invalidCredentialError ∧
    verify_api_key_for_service demoRegistry ("demo.service") (some ("abcdefghij")) =
      .ok demoService :=
  ⟨(verify_checks_in_order demoRegistry ("demo.service") none).1 rfl,
   (verify_checks_in_order [] ("demo.service") (some ("abcdefghij"))).2.1
     (by decide) rfl,
   (verify_checks_in_order demoRegistry ("demo.service") (some wrongKey)).2.2.1
     demoService (by decide) (by decide) (by decide),
   (verify_checks_in_order demoRegistry ("demo.service") (some ("abcdefghij"))).2.2.2.1
     demoService (by decide) (by decide) (by decide)⟩

/-- C2 counterexample: the demo service is registered and the empty string
differs from its stored apiKey, yet verification with the empty presented
key fails with the MissingCredential error, which is not the
InvalidCredential error: the emptiness guard runs before the key
comparison. -/
theorem verify_wrong_key_counterexample :
    demoService ∈ demoRegistry ∧
    ("" : String) ≠ demoService.api_key ∧
    verify_api_key_for_service demoRegistry demoService.name (some ("")) =
      .error missingCredentialError ∧
    missingCredentialError ≠ invalidCredentialError := by
  refine ⟨List.mem_singleton.mpr rfl, by decide, rfl, by decide⟩

/-- C2 amended: for every registry with pairwise distinct names, every
registered service S and every nonempty presented key differing from the
stored apiKey, verification of (S.name, key) fails with the
InvalidCredential error; an empty (or absent) presented key instead fails
with the MissingCredential error before the registry is consulted. -/
theorem verify_wrong_key_invalid (db : List Service) (s : Service) (k : String)
    (huniq : db.Pairwise (fun a b => a.name ≠ b.name)) (hmem : s ∈ db)
    (hk : k ≠ "") (hne : k ≠ s.api_key) :
    verify_api_key_for_service db s.name (some k) =
      .error invalidCredentialError ∧
    verify_api_key_for_service db s.name (some ("")) =
      .error missingCredentialError ∧
    verify_api_key_for_service db s.name none =
      .error missingCredentialError := by
  refine ⟨?_, rfl, rfl⟩
  have hfind := get_service_by_name_of_mem db s huniq hmem
  have hne2 : s.api_key ≠ k := fun h => hne h.symm
  simp [verify_api_key_for_service, hk, hfind, hne2]

/-- Witness for verify_wrong_key_invalid on the demo registry. -/
theorem verify_wrong_key_invalid_witness :
    verify_api_key_for_service demoRegistry demoService.name (some wrongKey) =
      .error invalidCredentialError ∧
    verify_api_key_for_service demoRegistry demoService.name (some ("")) =
      .error missingCredentialError ∧
    verify_api_key_for_service demoRegistry demoService.name none =
      .error missingCredentialError :=
  verify_wrong_key_invalid demoRegistry demoService wrongKey
    (by simp [demoRegistry]) (List.mem_singleton.mpr rfl)
    (by decide) (by decide)

/-- Appending a nonempty string never yields the empty string. -/
theorem append_right_ne_empty (s t : String) (ht : t ≠ "") : s ++ t ≠ "" := by
  intro h
  apply ht
  have hd : s.data ++ t.data = ([] : List Char) := by
    have h2 := congrArg String.data h
    rwa [String.data_append] at h2
  exact String.ext (List.append_eq_nil.mp hd).2

/-- Executor branch: the process completed with return code zero. -/
theorem run_completed_zero (action : ServiceAction)
    (service_name stdout stderr : String) :
    run_systemctl_command action service_name (.completed 0 stdout stderr) =
      ⟨service_name, action.value, true,
       "Service \x27" ++ service_name ++ "\x27 action \x27" ++ action.value ++
         "\x27 executed successfully.",
       some ("STDOUT:\n" ++ strip stdout ++ "\nSTDERR:\n" ++ strip stderr)⟩ := by
  simp [run_systemctl_command]

/-- Executor branch: the process completed with a nonzero return code. -/
theorem run_completed_nonzero (action : ServiceAction)
    (service_name stdout stderr : String) (rc : Int) (h : rc ≠ 0) :
    run_systemctl_command action service_name (.completed rc stdout stderr) =
      ⟨service_name, action.value, false,
       "Failed to execute \x27" ++ action.value ++ "\x27 on service \x27" ++
         service_name ++ "\x27. Return code: " ++ toString rc ++ ".",
       some ("STDOUT:\n" ++ strip stdout ++ "\nSTDERR:\n" ++ strip stderr)⟩ := by
  simp [run_systemctl_command, h]

/-- Executor branch: FileNotFoundError was raised, no process ran. -/
theorem run_file_not_found (action : ServiceAction) (service_name : String) :
    run_systemctl_command action service_name .fileNotFound =
      ⟨service_name, action.value, false,
       "Server configuration error: \x27sudo\x27 or \x27systemctl\x27 command not found.",
       some "Ensure sudo and systemctl are installed and in the PATH for the user running the FastAPI app."⟩ :=
  rfl

/-- Executor branch: the 30 second timeout elapsed. -/
theorem run_timeout (action : ServiceAction) (service_name : String) :
    run_systemctl_command action service_name .timeoutExpired =
      ⟨service_name, action.value, false,
       "Command \x27" ++ String.intercalate (" ") (systemctlCommand action service_name) ++
         "\x27 timed out after 30 seconds.",
       some "The service might be unresponsive or the command took too long."⟩ :=
  rfl

/-- Executor branch: some other exception was raised. -/
theorem run_other_error (action : ServiceAction) (service_name msg : String) :
    run_systemctl_command action service_name (.otherError msg) =
      ⟨service_name, action.value, false,
       "An unexpected error occurred while running the command: " ++ msg,
       some msg⟩ :=
  rfl

/-- The fixed configuration error message is nonempty. -/
theorem config_error_msg_ne_empty :
    ("Server configuration error: \x27sudo\x27 or \x27systemctl\x27 command not found." : String) ≠ "" := by
  decide

/-- C4: the outcome mapping of the Action Executor: a clean exit yields
success with the completion message and the captured stdout/stderr
concatenation in details; a nonzero exit yields failure with the exit code
in the message and the captured output in details; a missing command
binary (where no process ran) yields failure with the server configuration
error message; an elapsed timeout yields failure with the timeout
message. -/
theorem executor_outcome_mapping (action : ServiceAction)
    (service_name stdout stderr : String) (rc : Int) :
    (rc = 0 →
      run_systemctl_command action service_name (.completed rc stdout stderr) =
        ⟨service_name, action.value, true,
         "Service \x27" ++ service_name ++ "\x27 action \x27" ++ action.value ++
           "\x27 executed successfully.",
         some ("STDOUT:\n" ++ strip stdout ++ "\nSTDERR:\n" ++ strip stderr)⟩) ∧
    (rc ≠ 0 →
      run_systemctl_command action service_name (.completed rc stdout stderr) =
        ⟨service_name, action.value, false,
         "Failed to execute \x27" ++ action.value ++ "\x27 on service \x27" ++
           service_name ++ "\x27. Return code: " ++ toString rc ++ ".",
         some ("STDOUT:\n" ++ strip stdout ++ "\nSTDERR:\n" ++ strip stderr)⟩) ∧
    (run_systemctl_command action service_name .fileNotFound).success = false ∧
    (run_systemctl_command action service_name .fileNotFound).message =
      "Server configuration error: \x27sudo\x27 or \x27systemctl\x27 command not found." ∧
    (run_systemctl_command action service_name .timeoutExpired).success = false ∧
    (run_systemctl_command action service_name .timeoutExpired).message =
      "Command \x27" ++ String.intercalate (" ") (systemctlCommand action service_name) ++
        "\x27 timed out after 30 seconds." := by
  refine ⟨?_, ?_, rfl, rfl, rfl, rfl⟩
  · intro h
    subst h
    exact run_completed_zero action service_name stdout stderr
  · intro h
    exact run_completed_nonzero action service_name stdout stderr rc h

/-- Witness for executor_outcome_mapping: the clean exit conjunct applied
at return code 0 and the nonzero conjunct applied at return code 3. -/
theorem executor_outcome_mapping_witness :
    run_systemctl_command .status ("demo.service") (.completed 0 ("ok") ("")) =
      ⟨"demo.service", "status",
       true, "Service \x27demo.service\x27 action \x27status\x27 executed successfully.",
       some "STDOUT:\nok\nSTDERR:\n"⟩ ∧
    (run_systemctl_command .status ("demo.service") (.completed 3 ("") ("boom"))).success =
      false :=
  ⟨by
    rw [(executor_outcome_mapping .status ("demo.service") ("ok") ("") 0).1 rfl]
    decide,
   by rw [(executor_outcome_mapping .status ("demo.service") ("") ("boom") 3).2.1
            (by decide)]⟩

/-- C3: the Action Executor never raises: it is a total function into
ServiceResponse, and on every outcome other than a clean exit (nonzero
exit code, missing binary, timeout, unexpected exception) the returned
result has success false, a nonempty message and a details string. -/
theorem executor_captures_failures (action : ServiceAction)
    (service_name : String) (outcome : ProcOutcome)
    (h : outcome.isCleanExit = false) :
    (run_systemctl_command action service_name outcome).success = false ∧
    (run_systemctl_command action service_name outcome).message ≠ "" ∧
    ((run_systemctl_command action service_name outcome).details).isSome = true := by
  cases outcome with
  | completed rc stdout stderr =>
    have hrc : rc ≠ 0 := by
      intro h0
      subst h0
      simp [ProcOutcome.isCleanExit] at h
    rw [run_completed_nonzero action service_name stdout stderr rc hrc]
    exact ⟨rfl, append_right_ne_empty _ _ (by decide), rfl⟩
  | fileNotFound =>
    rw [run_file_not_found]
    exact ⟨rfl, config_error_msg_ne_empty, rfl⟩
  | timeoutExpired =>
    rw [run_timeout]
    exact ⟨rfl, append_right_ne_empty _ _ (by decide), rfl⟩
  | otherError msg =>
    rw [run_other_error]
    exact ⟨rfl, append_left_ne_empty _ _ (by decide), rfl⟩

/-- Witness for executor_captures_failures at a concrete timeout
outcome. -/
theorem executor_captures_failures_witness :
    (ProcOutcome.timeoutExpired).isCleanExit = false ∧
    (run_systemctl_command .restart ("demo.service") .timeoutExpired).success = false ∧
    (run_systemctl_command .restart ("demo.service") .timeoutExpired).message ≠ "" ∧
    ((run_systemctl_command .restart ("demo.service") .timeoutExpired).details).isSome = true :=
  ⟨rfl,
   (executor_captures_failures .restart ("demo.service") .timeoutExpired rfl).1,
   (executor_captures_failures .restart ("demo.service") .timeoutExpired rfl).2.1,
   (executor_captures_failures .restart ("demo.service") .timeoutExpired rfl).2.2⟩

/-- C10: in every branch of the Action Executor the returned result echoes
the requested service name and the action value, carries a nonempty
message and carries a details string (never the None default of the
schema). -/
theorem executor_result_fields (action : ServiceAction)
    (service_name : String) (outcome : ProcOutcome) :
    (run_systemctl_command action service_name outcome).service = service_name ∧
    (run_systemctl_command action service_name outcome).action = action.value ∧
    (run_systemctl_command action service_name outcome).message ≠ "" ∧
    ((run_systemctl_command action service_name outcome).details).isSome = true := by
  cases outcome with
  | completed rc stdout stderr =>
    rcases eq_or_ne rc 0 with h0 | h0
    · subst h0
      rw [run_completed_zero]
      exact ⟨rfl, rfl, append_right_ne_empty _ _ (by decide), rfl⟩
    · rw [run_completed_nonzero action service_name stdout stderr rc h0]
      exact ⟨rfl, rfl, append_right_ne_empty _ _ (by decide), rfl⟩
  | fileNotFound =>
    rw [run_file_not_found]
    exact ⟨rfl, rfl, config_error_msg_ne_empty, rfl⟩
  | timeoutExpired =>
    rw [run_timeout]
    exact ⟨rfl, rfl, append_right_ne_empty _ _ (by decide), rfl⟩
  | otherError msg =>
    rw [run_other_error]
    exact ⟨rfl, rfl, append_left_ne_empty _ _ (by decide), rfl⟩

/-- Parsing the declared value of an enumeration member yields that
member back. -/
theorem ofString_value (a : ServiceAction) :
    ServiceAction.ofString a.value = some a := by
  cases a <;> rfl

/-- C5: once credential verification passes, the gateway responds 200
with the executor result as the body, whatever the internal success flag
of that result; when verification fails the gateway propagates the
verification error, whose status is 401 or 404, and the executor performs
no systemctl invocation. -/
theorem gateway_status_mapping (db : List Service) (service_name : String)
    (action : ServiceAction) (x_api_key : Option String)
    (outcome : ProcOutcome) :
    (∀ s, verify_api_key_for_service db service_name x_api_key = .ok s →
      control_service_api db service_name action x_api_key outcome =
        .ok (200, run_systemctl_command action s.name outcome)) ∧
    (∀ e, verify_api_key_for_service db service_name x_api_key = .error e →
      control_service_api db service_name action x_api_key outcome = .error e ∧
      (e.status_code = 401 ∨ e.status_code = 404) ∧
      (handle_control_request db service_name action.value x_api_key outcome).2 = []) := by
  constructor
  · intro s hs
    simp [control_service_api, hs]
  · intro e he
    refine ⟨by simp [control_service_api, he], ?_, ?_⟩
    · rcases verify_error_cases db service_name x_api_key e he with h | h | h <;>
        subst h
      · exact Or.inl rfl
      · exact Or.inr rfl
      · exact Or.inl rfl
    · simp [handle_control_request, ofString_value, he]

/-- Witness for gateway_status_mapping: a passing request answered 200
with the executor body and a wrong-key request answered with the 401
error and no invocation. -/
theorem gateway_status_mapping_witness :
    control_service_api demoRegistry ("demo.service") .status
        (some ("abcdefghij")) (.completed 0 ("") ("")) =
      .ok (200, run_systemctl_command .status demoService.name (.completed 0 ("") (""))) ∧
    control_service_api demoRegistry ("demo.service") .status
        (some wrongKey) (.completed 0 ("") ("")) = .error invalidCredentialError ∧
    (invalidCredentialError.status_code = 401 ∨
      invalidCredentialError.status_code = 404) ∧
    (handle_control_request demoRegistry ("demo.service")
        (ServiceAction.status.value) (some wrongKey) (.completed 0 ("") (""))).2 = [] :=
  ⟨(gateway_status_mapping demoRegistry ("demo.service") .status
      (some ("abcdefghij")) (.completed 0 ("") (""))).1 demoService rfl,
   ((gateway_status_mapping demoRegistry ("demo.service") .status
      (some wrongKey) (.completed 0 ("") (""))).2 invalidCredentialError rfl).1,
   ((gateway_status_mapping demoRegistry ("demo.service") .status
      (some wrongKey) (.completed 0 ("") (""))).2 invalidCredentialError rfl).2.1,
   ((gateway_status_mapping demoRegistry ("demo.service") .status
      (some wrongKey) (.completed 0 ("") (""))).2 invalidCredentialError rfl).2.2⟩

/-- C6: admin service creation: a request whose name or apiKey collides
with an existing record fails with a 400 error and leaves the registry
unchanged; a request with a fresh name and fresh apiKey succeeds with 201
and a body carrying the created name and id (the ServiceRead schema has
no apiKey field), appending exactly the new record. -/
theorem admin_create_conflict_or_created (db : List Service)
    (name api_key : String) (newId : Nat) :
    (((∃ s ∈ db, s.name = name) ∨ (∃ s ∈ db, s.api_key = api_key)) →
      (∃ d, (create_new_service db name api_key newId).1 = .error ⟨400, d⟩) ∧
      (create_new_service db name api_key newId).2 = db) ∧
    ((∀ s ∈ db, s.name ≠ name) → (∀ s ∈ db, s.api_key ≠ api_key) →
      (create_new_service db name api_key newId).1 = .ok (201, ⟨name, newId⟩) ∧
      (create_new_service db name api_key newId).2 = db ++ [⟨newId, name, api_key⟩]) := by
  constructor
  · intro hdup
    rcases hn : get_service_by_name db name with _ | t
    · have hkey : ∃ s ∈ db, s.api_key = api_key := by
        rcases hdup with hname | hkey
        · exfalso
          rcases hname with ⟨s, hs, hsname⟩
          have := List.find?_eq_none.mp hn s hs
          simp [hsname] at this
        · exact hkey
      have hsome : (get_service_by_api_key db api_key).isSome := by
        rcases hkey with ⟨s, hs, hsk⟩
        exact List.find?_isSome.mpr ⟨s, hs, by simp [hsk]⟩
      rcases hk : get_service_by_api_key db api_key with _ | t2
      · rw [hk] at hsome
        cases hsome
      · exact ⟨⟨"API key already in use.",
          by simp [create_new_service, hn, hk]⟩,
          by simp [create_new_service, hn, hk]⟩
    · exact ⟨⟨"Service \x27" ++ name ++ "\x27 already registered.",
        by simp [create_new_service, hn]⟩,
        by simp [create_new_service, hn]⟩
  · intro hname hkey
    have hn : get_service_by_name db name = none :=
      List.find?_eq_none.mpr (fun s hs => by simp [hname s hs])
    have hk : get_service_by_api_key db api_key = none :=
      List.find?_eq_none.mpr (fun s hs => by simp [hkey s hs])
    exact ⟨by simp [create_new_service, create_service, hn, hk],
      by simp [create_new_service, create_service, hn, hk]⟩

/-- Witness for admin_create_conflict_or_created: creating a duplicate of
the demo service name fails and keeps the registry, creating a fresh
service succeeds with the keyless view appended. -/
theorem admin_create_witness :
    ((∃ d, (create_new_service demoRegistry ("demo.service") ("zzzzzzzzzz") 7).1 =
        .error ⟨400, d⟩) ∧
      (create_new_service demoRegistry ("demo.service") ("zzzzzzzzzz") 7).2 =
        demoRegistry) ∧
    (create_new_service demoRegistry ("other.service") ("0123456789") 2).1 =
      .ok (201, ⟨"other.service", 2⟩) ∧
    (create_new_service demoRegistry ("other.service") ("0123456789") 2).2 =
      demoRegistry ++ [⟨2, "other.service", "0123456789"⟩] :=
  ⟨(admin_create_conflict_or_created demoRegistry ("demo.service") ("zzzzzzzzzz") 7).1
      (Or.inl ⟨demoService, List.mem_singleton.mpr rfl, rfl⟩),
   (admin_create_conflict_or_created demoRegistry ("other.service") ("0123456789") 2).2
      (by decide) (by decide)⟩

/-- C7: each accepted action value parses back to its member and is placed
verbatim as the control verb of the single argv the executor builds;
a path segment outside the enumeration is rejected with the client-error
422 before any systemctl invocation, while a parsed action on a verified
service yields exactly one invocation whose verb is the action value. -/
theorem action_roundtrip_and_rejection (db : List Service)
    (service_name action_str : String) (x_api_key : Option String)
    (outcome : ProcOutcome) :
    (∀ a : ServiceAction, ServiceAction.ofString a.value = some a ∧
      (systemctlCommand a service_name)[2]? = some a.value ∧
      systemctlCommand a service_name = ["sudo", "/bin/systemctl", a.value, service_name]) ∧
    (ServiceAction.ofString action_str = none →
      (handle_control_request db service_name action_str x_api_key outcome).1 =
        .error invalidActionError ∧
      400 ≤ invalidActionError.status_code ∧ invalidActionError.status_code < 500 ∧
      (handle_control_request db service_name action_str x_api_key outcome).2 = []) ∧
    (∀ a s, ServiceAction.ofString action_str = some a →
      verify_api_key_for_service db service_name x_api_key = .ok s →
      (handle_control_request db service_name action_str x_api_key outcome).2 =
        [systemctlCommand a s.name]) := by
  refine ⟨?_, ?_, ?_⟩
  · intro a
    exact ⟨ofString_value a, rfl, rfl⟩
  · intro h
    refine ⟨?_, by decide, by decide, ?_⟩ <;> simp [handle_control_request, h]
  · intro a s ha hs
    simp [handle_control_request, ha, hs]

/-- Witness for action_roundtrip_and_rejection: the status verb round
trips, an unknown verb is rejected without invocation, and a valid
request produces the one expected argv. -/
theorem action_roundtrip_witness :
    ServiceAction.ofString ("status") = some .status ∧
    (handle_control_request demoRegistry ("demo.service") ("reload")
        (some ("abcdefghij")) (.completed 0 ("") (""))).1 =
      .error invalidActionError ∧
    (handle_control_request demoRegistry ("demo.service") ("reload")
        (some ("abcdefghij")) (.completed 0 ("") (""))).2 = [] ∧
    (handle_control_request demoRegistry ("demo.service") ("status")
        (some ("abcdefghij")) (.completed 0 ("") (""))).2 =
      [systemctlCommand .status demoService.name] :=
  ⟨((action_roundtrip_and_rejection demoRegistry ("demo.service") ("status")
      (some ("abcdefghij")) (.completed 0 ("") (""))).1 .status).1,
   ((action_roundtrip_and_rejection demoRegistry ("demo.service") ("reload")
      (some ("abcdefghij")) (.completed 0 ("") (""))).2.1 rfl).1,
   ((action_roundtrip_and_rejection demoRegistry ("demo.service") ("reload")
      (some ("abcdefghij")) (.completed 0 ("") (""))).2.1 rfl).2.2.2,
   (action_roundtrip_and_rejection demoRegistry ("demo.service") ("status")
      (some ("abcdefghij")) (.completed 0 ("") (""))).2.2 .status demoService rfl rfl⟩

/-- C8: listing services is pagination of the registry in insertion
order: the result has at most limit records, its i-th record is the
record at position skip + i of the registry, and it is a sublist of the
registry (insertion order preserved). -/
theorem list_services_pagination (db : List Service) (skip limit : Nat) :
    (get_services db skip limit).length ≤ limit ∧
    (∀ i, i < (get_services db skip limit).length →
      (get_services db skip limit)[i]? = db[skip + i]?) ∧
    (get_services db skip limit).Sublist db := by
  refine ⟨?_, ?_, ?_⟩
  · exact List.length_take_le limit (db.drop skip)
  · intro i hi
    have hlt : i < limit :=
      lt_of_lt_of_le hi (List.length_take_le limit (db.drop skip))
    rw [get_services, List.getElem?_take_of_lt hlt, List.getElem?_drop]
  · exact (List.take_sublist _ _).trans (List.drop_sublist _ _)

/-- Witness for list_services_pagination on the two-record registry with
offset one and limit five. -/
theorem list_services_pagination_witness :
    (get_services demoRegistry2 1 5).length ≤ 5 ∧
    (get_services demoRegistry2 1 5)[0]? = demoRegistry2[1 + 0]? ∧
    (get_services demoRegistry2 1 5).Sublist demoRegistry2 :=
  ⟨(list_services_pagination demoRegistry2 1 5).1,
   (list_services_pagination demoRegistry2 1 5).2.1 0 (by decide),
   (list_services_pagination demoRegistry2 1 5).2.2⟩

/-- C9: the control endpoint (including its credential verification) and
the list endpoint leave the registry exactly as it was in every outcome;
the admin create endpoint either leaves it unchanged (conflict) or
appends exactly the one new record. -/
theorem registry_frame_conditions (db : List Service) :
    (∀ service_name action_str x_api_key outcome,
      (handle_request db (.control service_name action_str x_api_key outcome)).2 = db) ∧
    (∀ skip limit, (handle_request db (.adminList skip limit)).2 = db) ∧
    (∀ name api_key newId,
      (handle_request db (.adminCreate name api_key newId)).2 = db ∨
      (handle_request db (.adminCreate name api_key newId)).2 =
        db ++ [⟨newId, name, api_key⟩]) := by
  refine ⟨fun _ _ _ _ => rfl, fun _ _ => rfl, ?_⟩
  intro name api_key newId
  show (create_new_service db name api_key newId).2 = db ∨
    (create_new_service db name api_key newId).2 = db ++ [⟨newId, name, api_key⟩]
  rcases hn : get_service_by_name db name with _ | t
  · rcases hk : get_service_by_api_key db api_key with _ | t2
    · exact Or.inr (by simp [create_new_service, create_service, hn, hk])
    · exact Or.inl (by simp [create_new_service, hn, hk])
  · exact Or.inl (by simp [create_new_service, hn])
